import Mathlib

/-!
# Verification of the open-fund-analysis metrics engine

Shallow embedding of `src/analysis.py` (the metrics engine, eligibility
filter, peer ranking and yearly benchmark comparison of the
open-fund-analysis repository), together with theorems settling the
specification claims.

Modelling conventions:
* a pandas timestamp at day resolution is an integer (days since 1970-01-01);
  `daysFromCivil` / `yearOfEpochDay` implement the standard proleptic
  Gregorian conversions so that calendar-year logic is faithful;
* a float that can be NaN is an `Option` (none = NaN), and real arithmetic
  is exact (`ℚ` where the code computes field operations, `ℝ` where it takes
  `sqrt` or a real power);
* `np.searchsorted(side="left")` on a sorted date array is the count of
  strictly smaller entries;
* `DataFrame.sort_values("date")` is a sort by date. The embedding uses an
  insertion sort; pandas' default quicksort leaves the relative order of
  rows with equal dates implementation-defined, so no theorem below relies
  on the tie order among duplicate dates. `drop_duplicates(subset="date")`
  keeps the first occurrence in the sorted order;
* display rounding (`round(years, 3)`, `round(periods_per_year, 2)`) is
  presentational and omitted from the record fields.
-/

namespace FundAnalysis

/-! ## Calendar: civil date ↔ epoch day (days since 1970-01-01) -/

/-- Epoch day number of the civil date y-m-d (proleptic Gregorian). -/
def daysFromCivil (y m d : ℤ) : ℤ :=
  let y2 := if m ≤ 2 then y - 1 else y
  let era := (if 0 ≤ y2 then y2 else y2 - 399) / 400
  let yoe := y2 - era * 400
  let mp := (m + 9) % 12
  let doy := (153 * mp + 2) / 5 + d - 1
  let doe := yoe * 365 + yoe / 4 - yoe / 100 + doy
  era * 146097 + doe - 719468

/-- Calendar year of an epoch day number (proleptic Gregorian). -/
def yearOfEpochDay (z0 : ℤ) : ℤ :=
  let z := z0 + 719468
  let era := (if 0 ≤ z then z else z - 146096) / 146097
  let doe := z - era * 146097
  let yoe := (doe - doe / 1460 + doe / 36524 - doe / 146096) / 365
  let y := yoe + era * 400
  let doy := doe - (365 * yoe + yoe / 4 - yoe / 100)
  let mp := (5 * doy + 2) / 153
  let m := mp + (if mp < 10 then 3 else -9)
  if m ≤ 2 then y + 1 else y

/-! ## Data model -/

/-- One observation of a series: a date (epoch day) and a positive value
(NAV per unit or index level). -/
structure Obs where
  date : ℤ
  value : ℚ
deriving DecidableEq, Repr

/-- A named raw series as it comes out of one CSV file. -/
structure NamedSeries where
  name : String
  rows : List Obs
deriving DecidableEq, Repr

/-! ## Generic stable insertion sort and first-occurrence dedup -/

section SortDedup

variable {α : Type} (lt : α → α → Prop) [DecidableRel lt]

/-- Insert `x` after the leading elements that are strictly below it
(stable insertion). -/
def insertS (x : α) : List α → List α
  | [] => [x]
  | y :: ys => if lt y x then y :: insertS x ys else x :: y :: ys

/-- Stable insertion sort with respect to the strict order `lt`. -/
def sortS : List α → List α
  | [] => []
  | x :: xs => insertS lt x (sortS xs)

variable (key : α → ℤ)

/-- Keep each element whose key has not been seen before (pandas
`drop_duplicates` with the default keep="first"). -/
def dedupGo (seen : List ℤ) : List α → List α
  | [] => []
  | x :: xs => if key x ∈ seen then dedupGo seen xs else x :: dedupGo (key x :: seen) xs

/-- First-occurrence deduplication by key. -/
def dedupKey (l : List α) : List α := dedupGo key [] l

end SortDedup

/-! ## Series normalizer (`load_data`, and the shared normalization step of
`load_index_data`) -/

/-- `df.sort_values("date")`: sort observations by date. -/
def sortByDate (l : List Obs) : List Obs := sortS (fun a b => a.date < b.date) l

/-- `df.sort_values("date").drop_duplicates(subset="date")`: the series
normalizer shared by `load_data` and `load_index_data` (CSV parsing and the
short-name column are I/O plumbing outside the core). -/
def loadData (l : List Obs) : List Obs := dedupKey (fun o => o.date) (sortByDate l)

/-! ## Calendar inference -/

/-- `span_years(dates)`: day span first-to-last divided by 365; NaN when the
series is empty or the span is not positive. -/
def spanYears (dates : List ℤ) : Option ℚ :=
  match dates.head?, dates.getLast? with
  | some a, some b => if 0 < b - a then some (((b - a : ℤ) : ℚ) / 365) else none
  | _, _ => none

/-- `infer_periods_per_year(dates)`: observation count divided by the span in
years; NaN when the span is NaN or not positive. -/
def inferPeriodsPerYear (dates : List ℤ) : Option ℚ :=
  match spanYears dates with
  | some y => if 0 < y then some ((dates.length : ℚ) / y) else none
  | none => none

/-! ## Anchor lookup and windowed returns -/

/-- `np.searchsorted(dates, t, side="left")` on a date array sorted
ascending: the number of entries strictly below `t`. -/
def searchsortedLeft (dates : List ℤ) (t : ℤ) : ℤ :=
  ((dates.filter (fun d => decide (d < t))).length : ℤ)

/-- `period_return(df, days)`: return over the trailing window, the start NAV
taken at index `searchsorted(side="left") - 1` relative to the anchor
`last date - days`; NaN when fewer than 2 rows or the index is negative. -/
def periodReturn (l : List Obs) (days : ℤ) : Option ℚ :=
  if l.length < 2 then none else
  match l.getLast? with
  | some e =>
    let idx : ℤ := searchsortedLeft (l.map (fun o => o.date)) (e.date - days) - 1
    if idx < 0 then none else (l[idx.toNat]?).map (fun st => e.value / st.value - 1)
  | none => none

/-- Modelled from the spec: `find_at_or_before(series, target_date)` selects
the rightmost observation with date ≤ target_date (undefined when the target
precedes the first observation). Stated from the spec's words to compare
against the code's `searchsorted(side="left") - 1` lookup. -/
def specFindAtOrBefore (l : List Obs) (t : ℤ) : Option Obs :=
  (l.filter (fun o => decide (o.date ≤ t))).getLast?

/-! ## Metrics engine (`compute_metrics_single`) -/

/-- Per-step returns `value[i]/value[i-1] - 1` (the NaN produced by
`pct_change()` at index 0 is dropped, as `mean`/`std` skip it). -/
def rawReturns (l : List Obs) : List ℚ :=
  List.zipWith (fun prev cur => cur.value / prev.value - 1) l l.tail

/-- `Series.clip(-0.5, 0.5)` on one entry. -/
def clip (x : ℚ) : ℚ := min (max x (-(1/2))) (1/2)

/-- The clipped per-step return series `ret_clean`. -/
def clippedReturns (l : List Obs) : List ℚ := (rawReturns l).map clip

/-- `Series.mean(skipna=True)` over the non-NaN entries: NaN when empty. -/
def listMean (xs : List ℚ) : Option ℚ :=
  match xs with
  | [] => none
  | _ => some (xs.sum / xs.length)

/-- Sample variance with the N−1 denominator (`Series.std(ddof=1)` squared):
NaN when fewer than 2 entries. -/
def sampleVar (xs : List ℚ) : Option ℚ :=
  if xs.length < 2 then none
  else some ((xs.map (fun x => (x - xs.sum / xs.length) ^ 2)).sum / ((xs.length : ℚ) - 1))

/-- Inferred observations per year with the fixed fallback of 252 when the
inference is NaN or not positive. -/
def ppyFallback (l : List Obs) : ℚ :=
  match inferPeriodsPerYear (l.map (fun o => o.date)) with
  | some p => if 0 < p then p else 252
  | none => 252

/-- Per-period risk-free rate `(1 + rf_annual)^(1/periods_per_year) - 1`. -/
noncomputable def rfPeriodRate (rf ppy : ℚ) : ℝ :=
  ((1 + rf : ℚ) : ℝ) ^ ((1 : ℝ) / ((ppy : ℚ) : ℝ)) - 1

/-- CAGR `(value[last]/value[first])^(1/years) - 1`; NaN unless the span in
years is defined and positive. -/
noncomputable def cagrOf (l : List Obs) : Option ℝ :=
  match spanYears (l.map (fun o => o.date)) with
  | some y =>
    if 0 < y then
      match l.head?, l.getLast? with
      | some a, some b => some ((((b.value / a.value : ℚ) : ℝ) ^ ((1 : ℝ) / ((y : ℚ) : ℝ))) - 1)
      | _, _ => none
    else none
  | none => none

/-- Annualized volatility: sample standard deviation of the clipped returns
times `sqrt(periods_per_year)`; NaN when the standard deviation is NaN. -/
noncomputable def volOf (l : List Obs) : Option ℝ :=
  (sampleVar (clippedReturns l)).map
    (fun v => Real.sqrt ((v : ℚ) : ℝ) * Real.sqrt ((ppyFallback l : ℚ) : ℝ))

/-- Sharpe ratio `((mean - rf_period) / sd) * sqrt(periods_per_year)`; NaN
when the standard deviation is NaN or not strictly positive. -/
noncomputable def sharpeOf (l : List Obs) (rf : ℚ) : Option ℝ :=
  match sampleVar (clippedReturns l), listMean (clippedReturns l) with
  | some v, some mu =>
    if 0 < Real.sqrt ((v : ℚ) : ℝ) then
      some ((((mu : ℚ) : ℝ) - rfPeriodRate rf (ppyFallback l)) / Real.sqrt ((v : ℚ) : ℝ)
        * Real.sqrt ((ppyFallback l : ℚ) : ℝ))
    else none
  | _, _ => none

/-- Running maximum (`Series.cummax()`), continuation with accumulator. -/
def runningMaxGo (m : ℚ) : List ℚ → List ℚ
  | [] => []
  | x :: xs => max m x :: runningMaxGo (max m x) xs

/-- Running maximum of a value list. -/
def runningMax : List ℚ → List ℚ
  | [] => []
  | x :: xs => x :: runningMaxGo x xs

/-- Drawdown series `value[i]/running_max[i] - 1`. -/
def drawdowns (vals : List ℚ) : List ℚ :=
  List.zipWith (fun v m => v / m - 1) vals (runningMax vals)

/-- Max drawdown: minimum of the drawdown series; NaN when the series is
empty. -/
def maxDrawdownOf (l : List Obs) : Option ℚ :=
  (drawdowns (l.map (fun o => o.value))).min?

/-- Calmar ratio `CAGR / |max_drawdown|`; NaN unless both are defined and the
drawdown is nonzero. -/
noncomputable def calmarOf (l : List Obs) : Option ℝ :=
  match cagrOf l, maxDrawdownOf l with
  | some c, some m => if m ≠ 0 then some (c / |((m : ℚ) : ℝ)|) else none
  | _, _ => none

/-- Year-to-date return: anchor at Jan 1 of the year of the last observation,
start NAV at index `searchsorted(side="left") - 1`; NaN when that index is
negative. -/
def ytdOf (l : List Obs) : Option ℚ :=
  match l.getLast? with
  | some e =>
    let anchor := daysFromCivil (yearOfEpochDay e.date) 1 1
    let idx : ℤ := searchsortedLeft (l.map (fun o => o.date)) anchor - 1
    if idx < 0 then none else (l[idx.toNat]?).map (fun st => e.value / st.value - 1)
  | none => none

/-- The per-series metric record returned by `compute_metrics_single`. -/
structure MetricSet where
  startDate : ℤ
  endDate : ℤ
  years : Option ℚ
  obsPerYear : ℚ
  cagr : Option ℝ
  volAnnual : Option ℝ
  sharpe : Option ℝ
  maxDrawdown : Option ℚ
  calmar : Option ℝ
  ret1m : Option ℚ
  ret3m : Option ℚ
  ret6m : Option ℚ
  retYtd : Option ℚ
  ret1y : Option ℚ

/-- The metric record of a nonempty series (the field defaults for the start
and end date are never reached: `computeMetricsSingle` guards emptiness). -/
noncomputable def metricsOf (l : List Obs) (rf : ℚ) : MetricSet :=
  { startDate := ((l.head?).map (fun o => o.date)).getD 0
    endDate := ((l.getLast?).map (fun o => o.date)).getD 0
    years := spanYears (l.map (fun o => o.date))
    obsPerYear := ppyFallback l
    cagr := cagrOf l
    volAnnual := volOf l
    sharpe := sharpeOf l rf
    maxDrawdown := maxDrawdownOf l
    calmar := calmarOf l
    ret1m := periodReturn l 30
    ret3m := periodReturn l 90
    ret6m := periodReturn l 180
    retYtd := ytdOf l
    ret1y := periodReturn l 365 }

/-- `compute_metrics_single(df, rf_annual)`. On an empty frame the unguarded
`df["date"].iloc[-1]` (the YTD anchor, likewise `iloc[0]` for `start_date`)
raises `IndexError`; that failure is the `none` case. -/
noncomputable def computeMetricsSingle (l : List Obs) (rf : ℚ) : Option MetricSet :=
  match l with
  | [] => none
  | x :: xs => some (metricsOf (x :: xs) rf)

/-! ## Eligibility filter, index policy (`load_index_data`) -/

/-- The sorted distinct calendar years of a normalized series
(`sorted(set(df["date"].dt.year))`; the date column is already sorted, so
first-occurrence dedup of the year list yields the sorted set). -/
def yearsOf (df : List Obs) : List ℤ :=
  dedupKey (fun y => y) (df.map (fun o => yearOfEpochDay o.date))

/-- The rows of a series falling in calendar year `yr`. -/
def yearRows (df : List Obs) (yr : ℤ) : List Obs :=
  df.filter (fun o => decide (yearOfEpochDay o.date = yr))

/-- Stage (a) of the index policy: the earliest year whose within-year
first-to-last span, divided by the average month length 30.44 days, reaches
`minMonths`. -/
def firstValidYear (df : List Obs) (minMonths : ℚ) : List ℤ → Option ℤ
  | [] => none
  | yr :: rest =>
    match (yearRows df yr).head?, (yearRows df yr).getLast? with
    | some a, some b =>
      if minMonths ≤ ((b.date - a.date : ℤ) : ℚ) / (761 / 25) then some yr
      else firstValidYear df minMonths rest
    | _, _ => firstValidYear df minMonths rest

/-- `load_index_data(csv_path, min_months_first_year, min_years)`: normalize,
then reject (empty result) unless some year passes the first-year coverage
check and at least `minYears` calendar years exist from that year onward;
otherwise return the whole normalized series. -/
def loadIndexData (l : List Obs) (minMonths : ℚ) (minYears : ℕ) : List Obs :=
  let df := loadData l
  let years := yearsOf df
  match firstValidYear df minMonths years with
  | none => []
  | some vy => if (years.filter (fun y => decide (vy ≤ y))).length < minYears then [] else df

/-! ## Peer ranking (`compare_funds`) -/

/-- One row of the comparison table: fund identifier plus its metric set. -/
structure CompRow where
  fund : String
  ms : MetricSet

/-- The comparison table plus the audit list of dropped subjects with their
spans (`rank_df.attrs["dropped_funds"]`). -/
structure CompResult where
  rows : List CompRow
  dropped : List (String × Option ℚ)

/-- Fund-policy eligibility: the loaded series' span in years is defined
(finite) and at least 1.0. -/
def eligB (t : NamedSeries) : Bool :=
  match spanYears ((loadData t.rows).map (fun o => o.date)) with
  | some y => decide (1 ≤ y)
  | none => false

/-- The `compare_funds` loop before sorting: eligible subjects become metric
rows, ineligible ones are recorded with their span and skipped without
invoking the metrics engine. -/
noncomputable def compareFundsCore (inputs : List NamedSeries) (rf : ℚ) :
    List CompRow × List (String × Option ℚ) :=
  match inputs with
  | [] => ([], [])
  | t :: ts =>
    let rest := compareFundsCore ts rf
    let df := loadData t.rows
    match spanYears (df.map (fun o => o.date)) with
    | none => (rest.1, (t.name, none) :: rest.2)
    | some y =>
      if y < 1 then (rest.1, (t.name, some y) :: rest.2)
      else
        match computeMetricsSingle df rf with
        | some m => (⟨t.name, m⟩ :: rest.1, rest.2)
        | none => rest  -- unreachable: a defined span forces a nonempty frame

/-- Descending order on possibly-NaN keys with NaN last: `a` strictly
precedes `b` when `a` is defined and larger, or `a` is defined and `b` is
NaN (`sort_values(ascending=False, na_position="last")` on one key). -/
def optDGT : Option ℝ → Option ℝ → Prop
  | some x, some y => y < x
  | some _, none => True
  | none, _ => False

/-- `a` weakly precedes `b` in the descending NaN-last order. -/
def optDGE (a b : Option ℝ) : Prop := optDGT a b ∨ a = b

/-- Strict precedence of comparison rows under the lexicographic
(Sharpe descending, CAGR descending, NaN last) key of `sort_values`. -/
def rowLt (a b : CompRow) : Prop :=
  optDGT a.ms.sharpe b.ms.sharpe ∨
    (a.ms.sharpe = b.ms.sharpe ∧ optDGT a.ms.cagr b.ms.cagr)

open Classical in
/-- `compare_funds(file_paths, rf_annual)`: run the loop; when no row was
built, `if rank_df.empty: return rank_df` returns the bare empty frame
BEFORE `attrs["dropped_funds"]` is attached, so the dropped audit list is
discarded on that path; otherwise sort the table by (Sharpe descending,
CAGR descending) with NaN last and attach the dropped list (an absent
`attrs` entry and an empty dropped list are the same observable). -/
noncomputable def compareFunds (inputs : List NamedSeries) (rf : ℚ) : CompResult :=
  let core := compareFundsCore inputs rf
  if core.1.isEmpty then ⟨[], []⟩ else ⟨sortS rowLt core.1, core.2⟩

/-! ## Yearly benchmark comparison (`yearly_comparison_multi_index`) -/

/-- One row of the yearly table: fund, calendar year, the fund's within-year
return, and per index a (return, beat-flag) pair, each possibly None. -/
structure YearlyRow where
  fund : String
  year : ℤ
  fundReturn : ℚ
  cols : List (String × Option ℚ × Option Bool)
deriving DecidableEq, Repr

/-- Python dict assignment `index_dfs[name] = df`: replace in place if the
key exists, else append. -/
def dictInsert (k : String) (v : List Obs) :
    List (String × List Obs) → List (String × List Obs)
  | [] => [(k, v)]
  | (k2, v2) :: rest => if k = k2 then (k, v) :: rest else (k2, v2) :: dictInsert k v rest

/-- The `index_dfs` loop body with the accumulated dictionary: indices are
processed in input order, so on duplicate names the later file's data wins
and keys keep their first-insertion position (Python dict semantics). -/
def buildIndexDfsGo (acc : List (String × List Obs)) :
    List NamedSeries → List (String × List Obs)
  | [] => acc
  | t :: ts =>
    let df := loadIndexData t.rows 3 2
    if df.isEmpty then buildIndexDfsGo acc ts
    else buildIndexDfsGo (dictInsert t.name df acc) ts

/-- Load every index through `load_index_data` (default thresholds 3 months,
2 years) and keep the nonempty ones, keyed by name. -/
def buildIndexDfs (l : List NamedSeries) : List (String × List Obs) :=
  buildIndexDfsGo [] l

/-- The per-index body of the yearly loop: restrict the index to the year; if
empty, both the return and the flag are None; otherwise the within-year
return `last/first - 1` and the strict outperformance flag. -/
def indexEntry (df : List Obs) (yr : ℤ) (fundRet : ℚ) : Option ℚ × Option Bool :=
  match (yearRows df yr).head?, (yearRows df yr).getLast? with
  | some a, some b =>
    let r := b.value / a.value - 1
    (some r, some (decide (r < fundRet)))
  | _, _ => (none, none)

/-- The yearly rows of one fund against the loaded indices: one row per
calendar year present in the fund's series. -/
def fundYearlyRows (idxDfs : List (String × List Obs)) (name : String)
    (df : List Obs) : List YearlyRow :=
  (yearsOf df).filterMap (fun yr =>
    match (yearRows df yr).head?, (yearRows df yr).getLast? with
    | some a, some b =>
      let fr := b.value / a.value - 1
      some ⟨name, yr, fr, idxDfs.map (fun p => (p.1, indexEntry p.2 yr fr))⟩
    | _, _ => none)

/-- `yearly_comparison_multi_index(fund_paths, index_paths)`. -/
def yearlyComparison (funds idxs : List NamedSeries) : List YearlyRow :=
  let idxDfs := buildIndexDfs idxs
  funds.flatMap (fun t =>
    let df := loadData t.rows
    if df.isEmpty then [] else fundYearlyRows idxDfs t.name df)

/-! ## Concrete instances used by the claim theorems -/

/-- Two observations, the second exactly `30` days after the first: the
30-day window anchor falls exactly on the first observation's date. -/
def exAnchorA : List Obs := [⟨0, 100⟩, ⟨30, 110⟩]

/-- Three observations with one exactly on the 30-day window anchor
(day 10 = day 40 − 30). -/
def exAnchorB : List Obs := [⟨0, 100⟩, ⟨10, 105⟩, ⟨40, 110⟩]

/-- A series with an observation exactly on Jan 1 2022 (epoch day 18993) and
one on the prior trading day (Dec 31 2021, epoch day 18992). -/
def exYtd : List Obs := [⟨18992, 100⟩, ⟨18993, 102⟩, ⟨19144, 110⟩]

/-- 366 daily observations spanning exactly 365 days, first value 100, last
value 110, monotone non-decreasing (the spec's CAGR example). -/
def exDaily366 : List Obs :=
  (List.range 366).map (fun i => ⟨(i : ℤ), 100 + 10 * (i : ℚ) / 365⟩)

/-- An index with weekly data confined to Nov 1 – Dec 31 of 2019 (first
year: two months of coverage) and weekly data covering all of 2020–2022
(Jan 1 2020 = epoch day 18262 through Dec 31 2022 = epoch day 19357). -/
def exIdxNovDec : List Obs :=
  (((List.range 9).map (fun i => ⟨18201 + 7 * (i : ℤ), 100⟩)) ++ [⟨18261, 100⟩]) ++
  (((List.range 157).map (fun i => ⟨18262 + 7 * (i : ℤ), 100⟩)) ++ [⟨19357, 100⟩])

/-- A constant-value series with exactly two observations and a positive
span. -/
def exConst2 : List Obs := [⟨0, 100⟩, ⟨365, 100⟩]

/-- A series with a raw +200% step (clipped to +50% in the mean/volatility
pipeline). -/
def exJump : List Obs := [⟨0, 100⟩, ⟨1, 300⟩, ⟨366, 300⟩]

/-- The same dates as `exJump` but with a raw +50% step: its clipped return
series coincides with `exJump`'s. -/
def exFlat : List Obs := [⟨0, 100⟩, ⟨1, 150⟩, ⟨366, 150⟩]

/-- A series with a raw −90% step (beyond the −50% clip bound). -/
def exDown : List Obs := [⟨0, 100⟩, ⟨1, 10⟩, ⟨366, 10⟩]

/-- A series whose only step, +800%, crosses the Jan 1 2022 YTD anchor. -/
def exYtdJump : List Obs := [⟨18992, 100⟩, ⟨19144, 900⟩]

/-- A fund present only in calendar year 2022. -/
def exFund2022 : NamedSeries := ⟨"F", [⟨18997, 10⟩, ⟨19144, 11⟩]⟩

/-- An index with data in 2021 and 2023 but none in 2022; it passes the
index policy (valid start year 2021, two years from there on). -/
def exIdxNo2022 : NamedSeries :=
  ⟨"IDX", [⟨18628, 100⟩, ⟨18992, 105⟩, ⟨19358, 105⟩, ⟨19538, 110⟩]⟩

/-- A fund with a 100-day span (100/365 = 20/73 years < 1): ineligible for
the peer ranking. -/
def exShortFund : NamedSeries := ⟨"S", [⟨0, 10⟩, ⟨100, 11⟩]⟩

/-- A fund with a 400-day span (≥ 1 year): eligible for the peer ranking. -/
def exEligFund : NamedSeries := ⟨"E", [⟨0, 10⟩, ⟨400, 11⟩]⟩

/-! ## Lemmas: insertion sort -/

section SortProofs

variable {α : Type} (lt : α → α → Prop) [DecidableRel lt]

theorem perm_insertS (x : α) : ∀ l : List α, (insertS lt x l).Perm (x :: l)
  | [] => List.Perm.refl _
  | y :: ys => by
    by_cases h : lt y x
    · simpa [insertS, h] using ((perm_insertS x ys).cons y).trans (List.Perm.swap x y ys)
    · simp [insertS, h]

theorem perm_sortS : ∀ l : List α, (sortS lt l).Perm l
  | [] => List.Perm.refl _
  | x :: xs => ((perm_insertS lt x (sortS lt xs)).trans ((perm_sortS xs).cons x))

theorem pairwise_insertS
    (asym : ∀ a b, lt a b → ¬ lt b a)
    (tot : ∀ a b c, lt a c → lt a b ∨ lt b c) (x : α) :
    ∀ l : List α, l.Pairwise (fun a b => ¬ lt b a) →
      (insertS lt x l).Pairwise (fun a b => ¬ lt b a)
  | [], _ => by simp [insertS]
  | y :: ys, h => by
    obtain ⟨hy, hys⟩ := List.pairwise_cons.mp h
    by_cases hlt : lt y x
    · rw [insertS, if_pos hlt]
      refine List.pairwise_cons.mpr ⟨?_, pairwise_insertS asym tot x ys hys⟩
      intro z hz
      rcases List.mem_cons.mp ((perm_insertS lt x ys).mem_iff.mp hz) with hzx | hzys
      · exact hzx ▸ asym y x hlt
      · exact hy z hzys
    · rw [insertS, if_neg hlt]
      refine List.pairwise_cons.mpr ⟨?_, h⟩
      intro z hz
      rcases List.mem_cons.mp hz with hzy | hzys
      · exact hzy ▸ hlt
      · intro hzx
        rcases tot z y x hzx with hzy2 | hyx
        · exact hy z hzys hzy2
        · exact hlt hyx

theorem pairwise_sortS
    (asym : ∀ a b, lt a b → ¬ lt b a)
    (tot : ∀ a b c, lt a c → lt a b ∨ lt b c) :
    ∀ l : List α, (sortS lt l).Pairwise (fun a b => ¬ lt b a)
  | [] => List.Pairwise.nil
  | x :: xs => pairwise_insertS lt asym tot x (sortS lt xs) (pairwise_sortS asym tot xs)

end SortProofs

/-! ## Claim C4 -/

/-- C4 (code bug evidence): on an empty series `compute_metrics_single` does
not return an all-undefined `MetricSet`; the unguarded
`df["date"].iloc[-1]` raises (the `none` case of the embedding), even though
the drawdown two lines earlier is explicitly guarded for emptiness. -/
theorem c4_empty_series_raises (rf : ℚ) : computeMetricsSingle [] rf = none := rfl

/-! ## Claim C1 -/

unseal Rat.mul Rat.inv Rat.add Rat.sub in
/-- C1 (code bug evidence): the anchor lookup `searchsorted(side="left")-1`
selects the rightmost observation whose date is STRICTLY before the target,
not at-or-before. With observations at days 0 and 30 and a 30-day window the
anchor (day 0) coincides with the first observation, so the claim's rule
gives `some ⟨0,100⟩` (return 1/10) while the code returns NaN; with
observations at days 0, 10, 40 the 30-day anchor (day 10) coincides with
`⟨10,105⟩`, which the claim's rule selects, while the code uses `⟨0,100⟩`
(return 1/10 instead of 1/21); the YTD lookup has the same off-by-one: with
an observation exactly on Jan 1 2022 the code anchors on the prior year's
last value (return 1/10 = 110/100 - 1 instead of 110/102 - 1). -/
theorem c1_anchor_lookup_is_strictly_before :
    periodReturn exAnchorA 30 = none ∧
    specFindAtOrBefore exAnchorA 0 = some ⟨0, 100⟩ ∧
    periodReturn exAnchorB 30 = some (1 / 10) ∧
    specFindAtOrBefore exAnchorB 10 = some ⟨10, 105⟩ ∧
    ytdOf exYtd = some (1 / 10) ∧
    specFindAtOrBefore exYtd (daysFromCivil 2022 1 1) = some ⟨18993, 102⟩ := by
  decide

/-! ## Claim C3 -/

set_option maxRecDepth 400000 in
set_option maxHeartbeats 4000000 in
unseal Rat.mul Rat.inv Rat.add Rat.sub in
/-- C3 counterexample: an index with data only in Nov–Dec of its first
calendar year (60 days ≈ 1.97 months < 3) and weekly coverage of all of the
next three calendar years is NOT rejected by `load_index_data` at the
default thresholds — the result is not empty, contradicting the claim. -/
theorem c3_counterexample_first_year_not_fatal : loadIndexData exIdxNovDec 3 2 ≠ [] := by
  decide

set_option maxRecDepth 400000 in
set_option maxHeartbeats 8000000 in
unseal Rat.mul Rat.inv Rat.add Rat.sub in
/-- C3 amended: such a series is accepted. The Nov–Dec first year merely
fails the 3-month first-year coverage check, so the valid start year is the
first full year (2020); three calendar years from 2020 onward exist, which
meets the 2-year minimum, and `load_index_data` returns the entire
normalized series (the first-year rows included). -/
theorem c3_amended_series_accepted :
    loadIndexData exIdxNovDec 3 2 = loadData exIdxNovDec ∧
    firstValidYear (loadData exIdxNovDec) 3 (yearsOf (loadData exIdxNovDec)) = some 2020 ∧
    (yearsOf (loadData exIdxNovDec)).filter (fun y => decide (2020 ≤ y)) = [2020, 2021, 2022] := by
  exact ⟨by decide, by decide, by decide⟩

/-! ## Lemmas: drawdown of a monotone series -/

theorem runningMaxGo_chain (x : ℚ) :
    ∀ xs : List ℚ, List.Chain' (· ≤ ·) (x :: xs) → runningMaxGo x xs = xs
  | [], _ => rfl
  | y :: ys, h => by
    obtain ⟨hxy, h2⟩ := List.chain'_cons.mp h
    rw [runningMaxGo, max_eq_right hxy, runningMaxGo_chain y ys h2]

theorem runningMax_chain :
    ∀ vals : List ℚ, List.Chain' (· ≤ ·) vals → runningMax vals = vals
  | [], _ => rfl
  | x :: xs, h => by rw [runningMax, runningMaxGo_chain x xs h]

theorem zipWith_self_eq_map {α β : Type} (f : α → α → β) :
    ∀ l : List α, List.zipWith f l l = l.map (fun v => f v v)
  | [] => rfl
  | x :: xs => by rw [List.zipWith_cons_cons, zipWith_self_eq_map f xs, List.map_cons]

theorem drawdowns_chain (vals : List ℚ) (hpos : ∀ v ∈ vals, 0 < v)
    (hch : List.Chain' (· ≤ ·) vals) :
    drawdowns vals = vals.map (fun _ => 0) := by
  rw [drawdowns, runningMax_chain vals hch, zipWith_self_eq_map]
  exact List.map_congr_left (fun v hv => by rw [div_self (hpos v hv).ne']; norm_num)

theorem foldl_min_zeros : ∀ xs : List ℚ, List.foldl min (0 : ℚ) (xs.map (fun _ => 0)) = 0
  | [] => rfl
  | x :: xs => by
    rw [List.map_cons, List.foldl_cons, min_self]
    exact foldl_min_zeros xs

theorem min?_zeros : ∀ l : List ℚ, l ≠ [] → (l.map (fun _ => (0 : ℚ))).min? = some 0
  | [], h => absurd rfl h
  | x :: xs, _ => by
    show some (List.foldl min (0 : ℚ) (xs.map (fun _ => 0))) = some 0
    rw [foldl_min_zeros xs]

/-- The max drawdown of a nonempty monotone non-decreasing positive series
is exactly 0. -/
theorem maxDrawdown_monotone (l : List Obs) (hne : l ≠ [])
    (hpos : ∀ o ∈ l, 0 < o.value)
    (hch : List.Chain' (fun a b : Obs => a.value ≤ b.value) l) :
    maxDrawdownOf l = some 0 := by
  have hpos2 : ∀ v ∈ l.map (fun o => o.value), 0 < v := by
    intro v hv
    obtain ⟨o, ho, rfl⟩ := List.mem_map.mp hv
    exact hpos o ho
  have hch2 : List.Chain' (· ≤ ·) (l.map (fun o => o.value)) :=
    (List.chain'_map (fun o : Obs => o.value)).mpr hch
  rw [maxDrawdownOf, drawdowns_chain _ hpos2 hch2]
  exact min?_zeros _ (by simpa using hne)

/-! ## Claim C2 -/

unseal Rat.mul Rat.inv Rat.add Rat.sub in
/-- The CAGR of the 366-observation daily example: the span is exactly one
(365-divisor) year, so the exponent is 1 and the value is 110/100 − 1. -/
theorem cagrOf_exDaily366 : cagrOf exDaily366 = some (1 / 10) := by
  have hspan : spanYears (exDaily366.map (fun o => o.date)) = some 1 := by decide
  have hhead : exDaily366.head? = some ⟨0, 100⟩ := by decide
  have hlast : exDaily366.getLast? = some ⟨365, 110⟩ := by decide
  rw [cagrOf, hspan, hhead, hlast]
  norm_num [Real.rpow_one]

unseal Rat.mul Rat.inv Rat.add Rat.sub in
/-- C2 counterexample: `span_years` divides by 365, not 365.25: the
366-observation daily series spanning 365 days has span exactly 1 (and
1 ≠ 365/365.25), so its CAGR is exactly 110/100 − 1 = 1/10, which differs
from the claimed value `(110/100)^(365.25/365) − 1`. -/
theorem c2_counterexample_divisor_is_365 :
    spanYears (exDaily366.map (fun o => o.date)) = some 1 ∧
    (1 : ℚ) ≠ 365 / (1461 / 4) ∧
    (metricsOf exDaily366 (3 / 100)).cagr = some (1 / 10) ∧
    (1 / 10 : ℝ) ≠ ((110 : ℝ) / 100) ^ ((1461 / 4 : ℝ) / 365) - 1 := by
  refine ⟨by decide, by decide, cagrOf_exDaily366, ?_⟩
  intro h
  have hb : (1 : ℝ) < 110 / 100 := by norm_num
  have he : (1 : ℝ) < (1461 / 4 : ℝ) / 365 := by norm_num
  have h2 : ((110 : ℝ) / 100) ^ (1 : ℝ) < ((110 : ℝ) / 100) ^ ((1461 / 4 : ℝ) / 365) :=
    (Real.rpow_lt_rpow_left_iff hb).mpr he
  rw [Real.rpow_one] at h2
  linarith

/-- C2 amended: `span_years` uses the divisor 365 consistently, so for the
series of daily values covering exactly 366 days (365-day span) with first
value 100 and last value 110 the CAGR is `(110/100)^(365/365) − 1 = 0.1`
exactly, and the max drawdown is 0 for every nonempty monotone
non-decreasing positive value series. -/
theorem c2_amended_cagr_with_365 (rf : ℚ) :
    (metricsOf exDaily366 rf).cagr = some (1 / 10) ∧
    ∀ l : List Obs, l ≠ [] → (∀ o ∈ l, 0 < o.value) →
      List.Chain' (fun a b : Obs => a.value ≤ b.value) l →
      (metricsOf l rf).maxDrawdown = some 0 :=
  ⟨cagrOf_exDaily366, fun l h1 h2 h3 => maxDrawdown_monotone l h1 h2 h3⟩

unseal Rat.mul Rat.inv Rat.add Rat.sub in
/-- Witness for C2 at concrete inputs: the daily example's CAGR, and the max
drawdown of a concrete increasing series. -/
theorem c2_witness :
    (metricsOf exDaily366 (3 / 100)).cagr = some (1 / 10) ∧
    (metricsOf [⟨0, 2⟩, ⟨1, 3⟩] (3 / 100)).maxDrawdown = some 0 := by
  obtain ⟨h1, h2⟩ := c2_amended_cagr_with_365 (3 / 100)
  exact ⟨h1, h2 _ (by decide) (by decide) (by rw [List.chain'_pair]; norm_num)⟩

/-! ## Lemmas: constant-value series -/

theorem rawReturns_const (c : ℚ) (hc : c ≠ 0) :
    ∀ l : List Obs, (∀ o ∈ l, o.value = c) →
      rawReturns l = l.tail.map (fun _ => (0 : ℚ))
  | [], _ => rfl
  | [x], _ => rfl
  | x :: y :: ys, h => by
    have hx : x.value = c := h x (List.mem_cons_self x (y :: ys))
    have hy : y.value = c := h y (by simp)
    have hrest := rawReturns_const c hc (y :: ys)
      (fun o ho => h o (List.mem_cons_of_mem x ho))
    simp only [rawReturns, List.tail_cons, List.zipWith_cons_cons, List.map_cons] at hrest ⊢
    rw [hx, hy, div_self hc, hrest]
    norm_num

theorem sum_map_zero {α : Type} : ∀ l : List α, (l.map (fun _ => (0 : ℚ))).sum = 0
  | [] => rfl
  | x :: xs => by rw [List.map_cons, List.sum_cons, sum_map_zero xs, add_zero]

theorem listMean_zeros {α : Type} :
    ∀ l : List α, l ≠ [] → listMean (l.map (fun _ => (0 : ℚ))) = some 0
  | [], h => absurd rfl h
  | x :: xs, _ => by
    show some ((((x :: xs).map (fun _ => (0 : ℚ))).sum) / (((x :: xs).map _).length)) = some 0
    rw [sum_map_zero, zero_div]

theorem sampleVar_zeros {α : Type} (l : List α) (h : 2 ≤ l.length) :
    sampleVar (l.map (fun _ => (0 : ℚ))) = some 0 := by
  rw [sampleVar, if_neg (by simp only [List.length_map]; omega)]
  rw [sum_map_zero, List.map_map]
  have h2 : (l.map ((fun x : ℚ => (x - 0 / ((l.map (fun _ => (0 : ℚ))).length : ℚ)) ^ 2)
      ∘ (fun _ => (0 : ℚ)))) = l.map (fun _ => (0 : ℚ)) :=
    List.map_congr_left (fun a _ => by norm_num)
  rw [h2, sum_map_zero, zero_div]

theorem chain_value_const (c : ℚ) :
    ∀ l : List Obs, (∀ o ∈ l, o.value = c) →
      List.Chain' (fun a b : Obs => a.value ≤ b.value) l
  | [], _ => List.chain'_nil
  | [x], _ => List.chain'_singleton x
  | x :: y :: ys, h => by
    refine List.chain'_cons.mpr ⟨?_, chain_value_const c (y :: ys)
      (fun o ho => h o (List.mem_cons_of_mem x ho))⟩
    rw [h x (List.mem_cons_self x (y :: ys)), h y (by simp)]

/-! ## Claim C9 -/

unseal Rat.mul Rat.inv Rat.add Rat.sub in
/-- C9 counterexample: a constant series with exactly TWO observations and a
positive span has only one per-step return, so `std(ddof=1)` is NaN and the
annualized volatility is undefined rather than 0. -/
theorem c9_counterexample_two_point_constant :
    exConst2.length = 2 ∧ (∀ o ∈ exConst2, o.value = 100) ∧
    spanYears (exConst2.map (fun o => o.date)) = some 1 ∧
    (metricsOf exConst2 (3 / 100)).volAnnual = none := by
  refine ⟨by decide, by decide, by decide, ?_⟩
  show volOf exConst2 = none
  have h : sampleVar (clippedReturns exConst2) = none := by decide
  rw [volOf, h]
  rfl

/-- C9 amended: for every constant-value positive series with at least THREE
observations (hence at least two per-step returns) and strictly increasing
dates, the metrics engine yields CAGR = 0, annualized volatility = 0, max
drawdown = 0 and an undefined Sharpe ratio (zero standard deviation). -/
theorem c9_amended_constant_series (l : List Obs) (c : ℚ) (rf : ℚ)
    (hc : 0 < c) (hlen : 3 ≤ l.length) (hconst : ∀ o ∈ l, o.value = c)
    (hdates : l.Pairwise (fun a b : Obs => a.date < b.date)) :
    (metricsOf l rf).cagr = some 0 ∧ (metricsOf l rf).volAnnual = some 0 ∧
    (metricsOf l rf).maxDrawdown = some 0 ∧ (metricsOf l rf).sharpe = none := by
  obtain ⟨a, l1, rfl⟩ : ∃ a l1, l = a :: l1 := by
    cases l with
    | nil => simp at hlen
    | cons a l1 => exact ⟨a, l1, rfl⟩
  have hl1 : l1 ≠ [] := by
    intro he
    rw [he] at hlen
    simp at hlen
  have hne : (a :: l1) ≠ [] := by simp
  set b := (a :: l1).getLast hne with hb
  have hlast : (a :: l1).getLast? = some b := List.getLast?_eq_getLast _ hne
  have hbmem : b ∈ l1 := by
    rw [hb, List.getLast_cons hl1]
    exact List.getLast_mem hl1
  have hab : a.date < b.date := (List.pairwise_cons.mp hdates).1 b hbmem
  have hspan : spanYears ((a :: l1).map (fun o => o.date))
      = some (((b.date - a.date : ℤ) : ℚ) / 365) := by
    simp only [spanYears, List.head?_map, List.getLast?_map, hlast, List.head?_cons,
      Option.map_some']
    rw [if_pos (show (0 : ℤ) < b.date - a.date by omega)]
  have hspanpos : (0 : ℚ) < ((b.date - a.date : ℤ) : ℚ) / 365 := by
    apply div_pos _ (by norm_num)
    exact_mod_cast (by omega : (0 : ℤ) < b.date - a.date)
  have hav : a.value = c := hconst a (List.mem_cons_self a l1)
  have hbv : b.value = c := hconst b (List.mem_cons_of_mem a hbmem)
  have hraw := rawReturns_const c hc.ne' (a :: l1) hconst
  have hclip : clippedReturns (a :: l1) = l1.map (fun _ => (0 : ℚ)) := by
    rw [clippedReturns, hraw, List.tail_cons, List.map_map]
    exact List.map_congr_left (fun o _ => by norm_num [clip])
  have hlen1 : 2 ≤ l1.length := by
    have := hlen
    simp only [List.length_cons] at this
    omega
  have hsv : sampleVar (clippedReturns (a :: l1)) = some 0 := by
    rw [hclip]
    exact sampleVar_zeros l1 hlen1
  have hmean : listMean (clippedReturns (a :: l1)) = some 0 := by
    rw [hclip]
    exact listMean_zeros l1 hl1
  refine ⟨?_, ?_, ?_, ?_⟩
  · show cagrOf (a :: l1) = some 0
    simp only [cagrOf, hspan]
    rw [if_pos hspanpos]
    simp only [List.head?_cons, hlast]
    rw [hav, hbv, div_self hc.ne']
    norm_num [Real.one_rpow]
  · show volOf (a :: l1) = some 0
    rw [volOf, hsv]
    simp [Real.sqrt_zero]
  · show maxDrawdownOf (a :: l1) = some 0
    exact maxDrawdown_monotone _ hne
      (fun o ho => (hconst o ho) ▸ hc) (chain_value_const c _ hconst)
  · show sharpeOf (a :: l1) rf = none
    rw [sharpeOf, hsv, hmean]
    simp [Real.sqrt_zero]

unseal Rat.mul Rat.inv Rat.add Rat.sub in
/-- Witness for the amended C9 at a concrete three-observation constant
series. -/
theorem c9_witness :
    (metricsOf [⟨0, 5⟩, ⟨10, 5⟩, ⟨365, 5⟩] (3 / 100)).cagr = some 0 ∧
    (metricsOf [⟨0, 5⟩, ⟨10, 5⟩, ⟨365, 5⟩] (3 / 100)).volAnnual = some 0 ∧
    (metricsOf [⟨0, 5⟩, ⟨10, 5⟩, ⟨365, 5⟩] (3 / 100)).maxDrawdown = some 0 ∧
    (metricsOf [⟨0, 5⟩, ⟨10, 5⟩, ⟨365, 5⟩] (3 / 100)).sharpe = none :=
  c9_amended_constant_series _ 5 (3 / 100) (by norm_num) (by decide) (by decide)
    (by norm_num [List.pairwise_cons])

/-! ## Claim C5 -/

unseal Rat.mul Rat.inv Rat.add Rat.sub in
/-- The CAGR of the +200% step series uses the raw ratio 300/100 = 3. -/
theorem cagrOf_exJump : cagrOf exJump = some ((3 : ℝ) ^ ((365 : ℝ) / 366) - 1) := by
  have hs : spanYears (exJump.map (fun o => o.date)) = some (366 / 365) := by decide
  have hh : exJump.head? = some ⟨0, 100⟩ := by decide
  have hl : exJump.getLast? = some ⟨366, 300⟩ := by decide
  simp only [cagrOf, hs]
  rw [if_pos (by norm_num : (0 : ℚ) < 366 / 365)]
  simp only [hh, hl, Option.some.injEq]
  push_cast
  norm_num

unseal Rat.mul Rat.inv Rat.add Rat.sub in
/-- The CAGR of the clipped-equivalent series uses the raw ratio 3/2. -/
theorem cagrOf_exFlat : cagrOf exFlat = some ((3 / 2 : ℝ) ^ ((365 : ℝ) / 366) - 1) := by
  have hs : spanYears (exFlat.map (fun o => o.date)) = some (366 / 365) := by decide
  have hh : exFlat.head? = some ⟨0, 100⟩ := by decide
  have hl : exFlat.getLast? = some ⟨366, 150⟩ := by decide
  simp only [cagrOf, hs]
  rw [if_pos (by norm_num : (0 : ℚ) < 366 / 365)]
  simp only [hh, hl, Option.some.injEq]
  push_cast
  norm_num

unseal Rat.mul Rat.inv Rat.add Rat.sub in
/-- C5: the per-step returns are clipped to [−0.5, 0.5] before the
mean/volatility/Sharpe pipeline and nowhere else. First conjunct: volatility
and Sharpe depend only on the date sequence and the CLIPPED return series
(two series whose clipped returns agree — here one with a raw +200% step —
get identical volatility and Sharpe). The remaining conjuncts show the raw
unclipped values flowing into the other metrics: max drawdown keeps a raw
−90% step (−0.9, beyond the clip bound), the 1-year trailing return keeps a
raw +200% step (2), the YTD return keeps a raw +800% step (8), and the CAGRs
of the two clip-equivalent series differ because CAGR uses the raw values. -/
theorem c5_clipping_only_mean_vol_sharpe :
    (∀ (l1 l2 : List Obs) (rf : ℚ),
        l1.map (fun o => o.date) = l2.map (fun o => o.date) →
        clippedReturns l1 = clippedReturns l2 →
        (metricsOf l1 rf).volAnnual = (metricsOf l2 rf).volAnnual ∧
        (metricsOf l1 rf).sharpe = (metricsOf l2 rf).sharpe) ∧
    rawReturns exJump = [2, 0] ∧
    clippedReturns exJump = [1 / 2, 0] ∧
    rawReturns exFlat = [1 / 2, 0] ∧
    clippedReturns exFlat = [1 / 2, 0] ∧
    (metricsOf exJump (3 / 100)).maxDrawdown = some 0 ∧
    (metricsOf exDown (3 / 100)).maxDrawdown = some (-(9 / 10)) ∧
    (metricsOf exJump (3 / 100)).ret1y = some 2 ∧
    (metricsOf exYtdJump (3 / 100)).retYtd = some 8 ∧
    (metricsOf exJump (3 / 100)).cagr ≠ (metricsOf exFlat (3 / 100)).cagr := by
  refine ⟨?_, by decide, by decide, by decide, by decide, by decide, by decide,
    by decide, by decide, ?_⟩
  · intro l1 l2 rf hd hcr
    have hppy : ppyFallback l1 = ppyFallback l2 := by
      simp only [ppyFallback]
      rw [hd]
    constructor
    · show volOf l1 = volOf l2
      simp only [volOf]
      rw [hcr, hppy]
    · show sharpeOf l1 rf = sharpeOf l2 rf
      simp only [sharpeOf]
      rw [hcr, hppy]
  · show cagrOf exJump ≠ cagrOf exFlat
    rw [cagrOf_exJump, cagrOf_exFlat]
    intro h
    injection h with h
    have hlt : (3 / 2 : ℝ) ^ ((365 : ℝ) / 366) < (3 : ℝ) ^ ((365 : ℝ) / 366) :=
      Real.rpow_lt_rpow (by norm_num) (by norm_num) (by norm_num)
    linarith

unseal Rat.mul Rat.inv Rat.add Rat.sub in
/-- Witness for C5's invariance part at the concrete pair whose clipped
returns agree while the raw returns differ (+200% vs +50%). -/
theorem c5_witness :
    exJump.map (fun o => o.date) = exFlat.map (fun o => o.date) ∧
    clippedReturns exJump = clippedReturns exFlat ∧
    (metricsOf exJump (3 / 100)).volAnnual = (metricsOf exFlat (3 / 100)).volAnnual ∧
    (metricsOf exJump (3 / 100)).sharpe = (metricsOf exFlat (3 / 100)).sharpe := by
  have h := c5_clipping_only_mean_vol_sharpe.1 exJump exFlat (3 / 100) (by decide) (by decide)
  exact ⟨by decide, by decide, h.1, h.2⟩

/-! ## Claim C8 -/

unseal Rat.mul Rat.inv Rat.add Rat.sub in
/-- C8: in the yearly benchmark comparison, when an index has no
observations in a (fund, year) cell, both the index return and the
outperformance flag are None — never zero and never false — and when it has
observations the flag is exactly the strict comparison fund return > index
return. Moreover a fund present only in 2022 against an index with no 2022
data yields exactly one YearlyRow, for (fund, 2022), with that index's
return and flag both None. -/
theorem c8_missing_index_year_undefined :
    (∀ (df : List Obs) (yr : ℤ) (fr : ℚ),
        (yearRows df yr = [] → indexEntry df yr fr = (none, none)) ∧
        (∀ a b, (yearRows df yr).head? = some a → (yearRows df yr).getLast? = some b →
          indexEntry df yr fr
            = (some (b.value / a.value - 1), some (decide (b.value / a.value - 1 < fr))))) ∧
    yearlyComparison [exFund2022] [exIdxNo2022]
      = [⟨"F", 2022, 1 / 10, [("IDX", none, none)]⟩] := by
  constructor
  · intro df yr fr
    constructor
    · intro h
      simp only [indexEntry, h, List.head?_nil, List.getLast?_nil]
    · intro a b ha hb
      simp only [indexEntry, ha, hb]
  · decide

unseal Rat.mul Rat.inv Rat.add Rat.sub in
/-- Witness for C8: an empty year slice gives (None, None); the 2021 slice
of the concrete index gives the within-year return 105/100 − 1 = 1/20 and a
strict-inequality flag. -/
theorem c8_witness :
    indexEntry [] 2022 (1 / 10) = (none, none) ∧
    indexEntry exIdxNo2022.rows 2021 (1 / 10) = (some (1 / 20), some true) := by
  obtain ⟨hgen, _⟩ := c8_missing_index_year_undefined
  refine ⟨(hgen [] 2022 (1 / 10)).1 rfl, ?_⟩
  have h := (hgen exIdxNo2022.rows 2021 (1 / 10)).2 ⟨18628, 100⟩ ⟨18992, 105⟩
    (by decide) (by decide)
  rw [h]
  decide

/-! ## Lemmas: the descending NaN-last ordering -/

theorem optDGT_asym : ∀ a b : Option ℝ, optDGT a b → ¬ optDGT b a
  | some _, some _, h, h2 => lt_asymm h h2
  | some _, none, _, h2 => h2
  | none, _, h, _ => h

theorem optDGT_total : ∀ a b : Option ℝ, optDGT a b ∨ a = b ∨ optDGT b a
  | some x, some y => by
    rcases lt_trichotomy x y with h | h | h
    · exact Or.inr (Or.inr h)
    · exact Or.inr (Or.inl (by rw [h]))
    · exact Or.inl h
  | some _, none => Or.inl trivial
  | none, some _ => Or.inr (Or.inr trivial)
  | none, none => Or.inr (Or.inl rfl)

theorem optDGT_weak_trans : ∀ a b c : Option ℝ, optDGT a c → optDGT a b ∨ optDGT b c
  | some _, some y, some z, h => by
    rcases le_or_lt y z with h1 | h1
    · exact Or.inl (lt_of_le_of_lt h1 h)
    · exact Or.inr h1
  | some _, some _, none, _ => Or.inr trivial
  | some _, none, some _, _ => Or.inl trivial
  | some _, none, none, _ => Or.inl trivial
  | none, _, _, h => h.elim

theorem rowLt_asym (a b : CompRow) : rowLt a b → ¬ rowLt b a := by
  intro h1 h2
  rcases h1 with h1 | ⟨he1, hc1⟩
  · rcases h2 with h2 | ⟨he2, hc2⟩
    · exact optDGT_asym _ _ h1 h2
    · rw [← he2] at h1
      exact optDGT_asym _ _ h1 h1
  · rcases h2 with h2 | ⟨he2, hc2⟩
    · rw [he1] at h2
      exact optDGT_asym _ _ h2 h2
    · exact optDGT_asym _ _ hc1 hc2

theorem rowLt_weak_trans (a b c : CompRow) : rowLt a c → rowLt a b ∨ rowLt b c := by
  intro h
  rcases h with h | ⟨he, hc⟩
  · rcases optDGT_weak_trans a.ms.sharpe b.ms.sharpe c.ms.sharpe h with h1 | h1
    · exact Or.inl (Or.inl h1)
    · exact Or.inr (Or.inl h1)
  · rcases optDGT_total a.ms.sharpe b.ms.sharpe with h1 | h1 | h1
    · exact Or.inl (Or.inl h1)
    · rcases optDGT_weak_trans a.ms.cagr b.ms.cagr c.ms.cagr hc with h2 | h2
      · exact Or.inl (Or.inr ⟨h1, h2⟩)
      · exact Or.inr (Or.inr ⟨by rw [← h1, he], h2⟩)
    · exact Or.inr (Or.inl (he ▸ h1))

theorem claim_rel_of_not_rowLt (a b : CompRow) (h : ¬ rowLt b a) :
    optDGE a.ms.sharpe b.ms.sharpe ∧
      (a.ms.sharpe = b.ms.sharpe → optDGE a.ms.cagr b.ms.cagr) := by
  have h1 : ¬ optDGT b.ms.sharpe a.ms.sharpe := fun hh => h (Or.inl hh)
  have h2 : ¬ (b.ms.sharpe = a.ms.sharpe ∧ optDGT b.ms.cagr a.ms.cagr) :=
    fun hh => h (Or.inr hh)
  constructor
  · rcases optDGT_total a.ms.sharpe b.ms.sharpe with hh | hh | hh
    · exact Or.inl hh
    · exact Or.inr hh
    · exact absurd hh h1
  · intro he
    rcases optDGT_total a.ms.cagr b.ms.cagr with hh | hh | hh
    · exact Or.inl hh
    · exact Or.inr hh
    · exact absurd ⟨he.symm, hh⟩ h2

/-! ## Claim C6 -/

open Classical in
/-- C6: for every input collection and risk-free rate, the peer-ranking
table is sorted by Sharpe descending with CAGR descending as the tiebreaker
and NaN ordered after defined values: every adjacent pair satisfies
sharpe[i] ≥ sharpe[i+1] in the descending-NaN-last order, and when the
Sharpe keys are equal additionally cagr[i] ≥ cagr[i+1]. -/
theorem c6_ranking_sorted_sharpe_cagr (inputs : List NamedSeries) (rf : ℚ) :
    List.Chain' (fun r1 r2 : CompRow =>
      optDGE r1.ms.sharpe r2.ms.sharpe ∧
        (r1.ms.sharpe = r2.ms.sharpe → optDGE r1.ms.cagr r2.ms.cagr))
      (compareFunds inputs rf).rows := by
  have hp : ((compareFunds inputs rf).rows).Pairwise (fun a b => ¬ rowLt b a) := by
    by_cases hcore : ((compareFundsCore inputs rf).1).isEmpty
    · have hrows : (compareFunds inputs rf).rows = [] := by
        simp [compareFunds, hcore]
      rw [hrows]
      exact List.Pairwise.nil
    · have hrows : (compareFunds inputs rf).rows
          = sortS rowLt (compareFundsCore inputs rf).1 := by
        simp [compareFunds, hcore]
      rw [hrows]
      exact pairwise_sortS rowLt rowLt_asym rowLt_weak_trans _
  exact (hp.imp (fun h => claim_rel_of_not_rowLt _ _ h)).chain'

/-! ## Claim C7 -/

theorem compareFundsCore_spec (rf : ℚ) : ∀ inputs : List NamedSeries,
    (compareFundsCore inputs rf).1
        = (inputs.filter (fun t => eligB t)).filterMap
            (fun t => (computeMetricsSingle (loadData t.rows) rf).map
              (fun m => CompRow.mk t.name m)) ∧
    (compareFundsCore inputs rf).2
        = (inputs.filter (fun t => ! eligB t)).map
            (fun t => (t.name, spanYears ((loadData t.rows).map (fun o => o.date))))
  | [] => ⟨rfl, rfl⟩
  | t :: ts => by
    obtain ⟨ih1, ih2⟩ := compareFundsCore_spec rf ts
    rcases hspan : spanYears ((loadData t.rows).map (fun o => o.date)) with _ | y
    · have hel : eligB t = false := by simp [eligB, hspan]
      constructor
      · simp only [compareFundsCore, hspan, List.filter_cons, hel, Bool.false_eq_true,
          if_false, ih1]
      · simp only [compareFundsCore, hspan, List.filter_cons, hel, Bool.not_false,
          if_true, List.map_cons, ih2, hspan]
    · by_cases hy : y < 1
      · have hel : eligB t = false := by
          simp only [eligB, hspan, decide_eq_false_iff_not, not_le]
          exact hy
        constructor
        · simp only [compareFundsCore, hspan, if_pos hy, List.filter_cons, hel,
            Bool.false_eq_true, if_false, ih1]
        · simp only [compareFundsCore, hspan, if_pos hy, List.filter_cons, hel,
            Bool.not_false, if_true, List.map_cons, ih2, hspan]
      · have hel : eligB t = true := by
          simp only [eligB, hspan, decide_eq_true_eq]
          exact not_lt.mp hy
        obtain ⟨x, xs, hdf⟩ : ∃ x xs, loadData t.rows = x :: xs := by
          rcases hldf : loadData t.rows with _ | ⟨x, xs⟩
          · rw [hldf] at hspan
            simp [spanYears] at hspan
          · exact ⟨x, xs, rfl⟩
        constructor
        · simp only [compareFundsCore, hspan, if_neg hy]
          rw [hdf]
          simp [computeMetricsSingle, List.filter_cons, hel, List.filterMap_cons, hdf, ih1]
        · simp only [compareFundsCore, hspan, if_neg hy, List.filter_cons, hel,
            Bool.not_true, Bool.false_eq_true, if_false, ih2]
          rw [hdf]
          simp [computeMetricsSingle]

theorem computeMetrics_isSome_of_eligB (t : NamedSeries) (rf : ℚ) (h : eligB t = true) :
    ∃ m, computeMetricsSingle (loadData t.rows) rf = some m := by
  rcases hspan : spanYears ((loadData t.rows).map (fun o => o.date)) with _ | y
  · rw [eligB, hspan] at h
    exact absurd h (by simp)
  · rcases hdf : loadData t.rows with _ | ⟨x, xs⟩
    · rw [hdf] at hspan
      simp [spanYears] at hspan
    · exact ⟨metricsOf (x :: xs) rf, rfl⟩

theorem core_rows_ne_nil (inputs : List NamedSeries) (rf : ℚ)
    (h : inputs.filter (fun t => eligB t) ≠ []) :
    (compareFundsCore inputs rf).1 ≠ [] := by
  obtain ⟨h1, _⟩ := compareFundsCore_spec rf inputs
  rw [h1]
  rcases hf : inputs.filter (fun t => eligB t) with _ | ⟨t, rest⟩
  · exact absurd hf h
  · have helig : eligB t = true :=
      (List.mem_filter.mp (hf ▸ List.mem_cons_self t rest)).2
    obtain ⟨m, hm⟩ := computeMetrics_isSome_of_eligB t rf helig
    simp [List.filterMap_cons, hm]

unseal Rat.mul Rat.inv Rat.add Rat.sub in
/-- C7 counterexample: when every subject is ineligible, `compare_funds`
returns at `if rank_df.empty` BEFORE `attrs["dropped_funds"]` is attached,
so the excluded subject is NOT recorded: with a single 100-day fund the
result has no rows and an empty dropped list, refuting "every excluded
subject is recorded in the dropped list together with its computed span". -/
theorem c7_counterexample_dropped_audit_lost :
    eligB exShortFund = false ∧
    (compareFunds [exShortFund] (3 / 100)).rows = [] ∧
    (compareFunds [exShortFund] (3 / 100)).dropped = [] := by
  have hspan : spanYears ((loadData exShortFund.rows).map (fun o => o.date))
      = some (20 / 73) := by decide
  have hcore1 : (compareFundsCore [exShortFund] (3 / 100)).1 = [] := by
    simp only [compareFundsCore, hspan]
    rw [if_pos (by norm_num : (20 / 73 : ℚ) < 1)]
  refine ⟨by decide, ?_, ?_⟩ <;> simp [compareFunds, hcore1]

open Classical in
/-- C7 amended: a subject appears as a row of the comparison table exactly
when its loaded span in years is defined and at least 1.0 — the rows are a
permutation of the metric rows of precisely the eligible subjects, so the
metrics engine is never invoked for an excluded one. The dropped list
records precisely the ineligible subjects, each with its computed (possibly
undefined) span, PROVIDED at least one subject is eligible; when no subject
is eligible, `compare_funds` returns the empty table before attaching
`attrs["dropped_funds"]` and the exclusions are silently discarded. -/
theorem c7_fund_eligibility_span (inputs : List NamedSeries) (rf : ℚ) :
    (compareFunds inputs rf).rows.Perm
        ((inputs.filter (fun t => eligB t)).filterMap
          (fun t => (computeMetricsSingle (loadData t.rows) rf).map
            (fun m => CompRow.mk t.name m))) ∧
    (inputs.filter (fun t => eligB t) ≠ [] →
      (compareFunds inputs rf).dropped
        = (inputs.filter (fun t => ! eligB t)).map
            (fun t => (t.name, spanYears ((loadData t.rows).map (fun o => o.date))))) ∧
    (inputs.filter (fun t => eligB t) = [] → (compareFunds inputs rf).dropped = []) := by
  obtain ⟨h1, h2⟩ := compareFundsCore_spec rf inputs
  by_cases hcore : ((compareFundsCore inputs rf).1).isEmpty
  · have hrows : (compareFunds inputs rf).rows = [] := by simp [compareFunds, hcore]
    have hdrop : (compareFunds inputs rf).dropped = [] := by simp [compareFunds, hcore]
    refine ⟨?_, ?_, fun _ => hdrop⟩
    · rw [hrows, ← h1, List.isEmpty_iff.mp hcore]
    · intro hne
      exact absurd (List.isEmpty_iff.mp hcore) (core_rows_ne_nil inputs rf hne)
  · have hrows : (compareFunds inputs rf).rows
        = sortS rowLt (compareFundsCore inputs rf).1 := by
      simp [compareFunds, hcore]
    have hdrop : (compareFunds inputs rf).dropped = (compareFundsCore inputs rf).2 := by
      simp [compareFunds, hcore]
    refine ⟨?_, fun _ => by rw [hdrop, h2], ?_⟩
    · have hperm : (compareFunds inputs rf).rows.Perm (compareFundsCore inputs rf).1 := by
        rw [hrows]
        exact perm_sortS rowLt _
      rw [h1] at hperm
      exact hperm
    · intro hz
      have hnil : (compareFundsCore inputs rf).1 = [] := by
        rw [h1, hz]
        rfl
      rw [hnil] at hcore
      exact absurd rfl hcore

unseal Rat.mul Rat.inv Rat.add Rat.sub in
/-- Witness for the amended C7: with one eligible and one ineligible fund
the dropped list records the short fund with its 20/73-year span; with only
the ineligible fund the dropped list is discarded. -/
theorem c7_witness :
    [exEligFund, exShortFund].filter (fun t => eligB t) ≠ [] ∧
    (compareFunds [exEligFund, exShortFund] (3 / 100)).dropped
      = [("S", some (20 / 73))] ∧
    [exShortFund].filter (fun t => eligB t) = [] ∧
    (compareFunds [exShortFund] (3 / 100)).dropped = [] := by
  have hmix := c7_fund_eligibility_span [exEligFund, exShortFund] (3 / 100)
  have hsolo := c7_fund_eligibility_span [exShortFund] (3 / 100)
  refine ⟨by decide, ?_, by decide, hsolo.2.2 (by decide)⟩
  rw [hmix.2.1 (by decide)]
  decide

end FundAnalysis
